import Mathlib

/-!
Verification of the hitloop approval broker against its specification.

This file is a shallow embedding of the Python sources of the repository:
  * src/hitloop/core/models.py            (Action, Decision, ApprovalRequest)
  * src/hitloop/persistence/base.py       (PendingApprovalRecord, to_dict/from_dict)
  * src/hitloop/persistence/memory.py     (InMemoryApprovalStore)
  * src/hitloop/persistence/postgres.py   (PostgresApprovalStore, SQL semantics)
  * src/hitloop/backends/persistent_webhook.py (circuit breaker, retry, broker)
  * src/hitloop/policies/risk_based.py    (RiskBasedPolicy)
  * src/hitloop/policies/audit_plus_escalate.py (AuditPlusEscalatePolicy, md5 sampling)
  * src/hitloop/langgraph/interrupt_nodes.py (gate_node, execute_node, should_execute)

Modelling conventions:
  * Python floats are modelled as rationals (Rat); wall-clock seconds are Rat.
  * Python dicts with string keys are modelled as insertion-ordered association
    lists; updating an existing key keeps its position, as CPython dicts do.
  * asyncio code is modelled by explicit state passing plus an environment that
    fixes every external outcome (send results, waiter resolution, clock reads).
  * Fallible code returns Option; a call that never returns is modelled as none.
-/

namespace Hitloop

/-- Python value universe for dict payloads (tool_args, metadata, state dicts). -/
inductive PyVal where
  | vNone : PyVal
  | vBool : Bool → PyVal
  | vInt : Int → PyVal
  | vFloat : Rat → PyVal
  | vStr : String → PyVal
  | vList : List PyVal → PyVal
  | vDict : List (String × PyVal) → PyVal

/-- A Python dict with string keys, in insertion order. -/
abbrev PyDict := List (String × PyVal)

/-- Lookup in an association list (dict getitem / dict.get). -/
def alist_get {A : Type} (l : List (String × A)) (k : String) : Option A :=
  match l with
  | [] => none
  | (k0, v) :: rest => if k0 = k then some v else alist_get rest k

/-- Dict upsert: replacing an existing key keeps its position, a new key is
appended, matching CPython insertion-order semantics. -/
def alist_put {A : Type} (l : List (String × A)) (k : String) (v : A) :
    List (String × A) :=
  match l with
  | [] => [(k, v)]
  | (k0, v0) :: rest =>
    if k0 = k then (k0, v) :: rest else (k0, v0) :: alist_put rest k v

/-- Dict key removal (del / dict.pop). -/
def alist_remove {A : Type} (l : List (String × A)) (k : String) :
    List (String × A) :=
  l.filter (fun p => p.1 ≠ k)

/-- RiskClass enum from core/models.py. -/
inductive RiskClass where
  | low : RiskClass
  | medium : RiskClass
  | high : RiskClass
deriving DecidableEq

/-- The .value string of the RiskClass enum. -/
def RiskClass.value : RiskClass → String
  | .low => "low"
  | .medium => "medium"
  | .high => "high"

/-- Action model from core/models.py (pydantic BaseModel). -/
structure Action where
  id : String
  tool_name : String
  tool_args : PyDict
  risk_class : RiskClass
  side_effects : List String
  rationale : String
  context_refs : List String

/-- Decision model from core/models.py. -/
structure Decision where
  action_id : String
  approved : Bool
  reason : String
  tags : List String
  decided_by : String
  latency_ms : Rat
deriving DecidableEq

/-- ApprovalRequest model from core/models.py. -/
structure ApprovalRequest where
  run_id : String
  action : Action
  summary_context : String
  policy_name : String
  policy_reason : String

/-- MD5 sine constants: K of i is floor of abs (sin (i+1)) * 2^32
(RFC 1321 table, used by hashlib.md5). -/
def md5_K : List Nat :=
  [3614090360, 3905402710, 606105819, 3250441966, 4118548399, 1200080426,
   2821735955, 4249261313, 1770035416, 2336552879, 4294925233, 2304563134,
   1804603682, 4254626195, 2792965006, 1236535329, 4129170786, 3225465664,
   643717713, 3921069994, 3593408605, 38016083, 3634488961, 3889429448,
   568446438, 3275163606, 4107603335, 1163531501, 2850285829, 4243563512,
   1735328473, 2368359562, 4294588738, 2272392833, 1839030562, 4259657740,
   2763975236, 1272893353, 4139469664, 3200236656, 681279174, 3936430074,
   3572445317, 76029189, 3654602809, 3873151461, 530742520, 3299628645,
   4096336452, 1126891415, 2878612391, 4237533241, 1700485571, 2399980690,
   4293915773, 2240044497, 1873313359, 4264355552, 2734768916, 1309151649,
   4149444226, 3174756917, 718787259, 3951481745]

/-- MD5 per-round left-rotation amounts (RFC 1321). -/
def md5_s : List Nat :=
  [7, 12, 17, 22, 7, 12, 17, 22, 7, 12, 17, 22, 7, 12, 17, 22,
   5, 9, 14, 20, 5, 9, 14, 20, 5, 9, 14, 20, 5, 9, 14, 20,
   4, 11, 16, 23, 4, 11, 16, 23, 4, 11, 16, 23, 4, 11, 16, 23,
   6, 10, 15, 21, 6, 10, 15, 21, 6, 10, 15, 21, 6, 10, 15, 21]

/-- 32-bit modular addition. -/
def wadd (a b : Nat) : Nat := (a + b) % 4294967296

/-- 32-bit bitwise complement (argument assumed below 2^32). -/
def wnot (a : Nat) : Nat := 4294967295 - a % 4294967296

/-- 32-bit left rotation by s (0 < s < 32). -/
def rotl32 (x s : Nat) : Nat :=
  ((x % 4294967296) * 2 ^ s) % 4294967296 + (x % 4294967296) / 2 ^ (32 - s)

/-- One MD5 round: state (a,b,c,d), message word accessor M, round index i. -/
def md5_round (M : Nat → Nat) (st : Nat × Nat × Nat × Nat) (i : Nat) :
    Nat × Nat × Nat × Nat :=
  let a := st.1
  let b := st.2.1
  let c := st.2.2.1
  let d := st.2.2.2
  let f :=
    if i < 16 then (b &&& c) ||| (wnot b &&& d)
    else if i < 32 then (d &&& b) ||| (wnot d &&& c)
    else if i < 48 then b ^^^ c ^^^ d
    else c ^^^ (b ||| wnot d)
  let g :=
    if i < 16 then i
    else if i < 32 then (5 * i + 1) % 16
    else if i < 48 then (3 * i + 5) % 16
    else (7 * i) % 16
  let t := wadd (wadd (wadd f a) (md5_K.getD i 0)) (M g)
  (d, wadd b (rotl32 t (md5_s.getD i 0)), b, c)

/-- Process one 512-bit chunk, updating the running MD5 state. -/
def md5_chunk (st : Nat × Nat × Nat × Nat) (M : Nat → Nat) :
    Nat × Nat × Nat × Nat :=
  let r := (List.range 64).foldl (md5_round M) st
  (wadd st.1 r.1, wadd st.2.1 r.2.1, wadd st.2.2.1 r.2.2.1,
   wadd st.2.2.2 r.2.2.2)

/-- Little-endian 64-bit byte encoding of n (lowest byte first). -/
def le64_bytes (n : Nat) : List Nat :=
  [n % 256, n / 256 % 256, n / 65536 % 256, n / 16777216 % 256,
   n / 4294967296 % 256, n / 1099511627776 % 256,
   n / 281474976710656 % 256, n / 72057594037927936 % 256]

/-- MD5 padding: 0x80, zeros to 56 mod 64, then the bit length as 64-bit LE. -/
def md5_pad (msg : List Nat) : List Nat :=
  let p := (119 - msg.length % 64) % 64
  msg ++ [128] ++ List.replicate p 0 ++ le64_bytes ((8 * msg.length) % 18446744073709551616)

/-- Little-endian 32-bit word at byte offset o of a byte list. -/
def le32_at (bytes : List Nat) (o : Nat) : Nat :=
  bytes.getD o 0 + 256 * bytes.getD (o + 1) 0 + 65536 * bytes.getD (o + 2) 0 +
    16777216 * bytes.getD (o + 3) 0

/-- MD5 of a byte string, as the four 32-bit state words (a0,b0,c0,d0). -/
def md5_words (msg : List Nat) : Nat × Nat × Nat × Nat :=
  let padded := md5_pad msg
  (List.range (padded.length / 64)).foldl
    (fun st ci => md5_chunk st (fun g => le32_at padded (64 * ci + 4 * g)))
    (1732584193, 4023233417, 2562383102, 271733878)

/-- UTF-8 encoding of one character (str.encode). -/
def utf8_char (c : Char) : List Nat :=
  let n := c.toNat
  if n < 128 then [n]
  else if n < 2048 then [192 + n / 64, 128 + n % 64]
  else if n < 65536 then [224 + n / 4096, 128 + n / 64 % 64, 128 + n % 64]
  else [240 + n / 262144, 128 + n / 4096 % 64, 128 + n / 64 % 64, 128 + n % 64]

/-- UTF-8 encoding of a string (str.encode). -/
def utf8_bytes (s : String) : List Nat :=
  s.data.foldr (fun c acc => utf8_char c ++ acc) []

/-- Byte swap of a 32-bit word. -/
def bswap32 (x : Nat) : Nat :=
  (x % 256) * 16777216 + (x / 256 % 256) * 65536 + (x / 65536 % 256) * 256 +
    x / 16777216 % 256

/-- The stable action-id hash of audit_plus_escalate.py:
int (hashlib.md5 (action.id.encode ()).hexdigest ()[:8], 16).  The first 8 hex
digits of the digest are the little-endian bytes of the first state word, read
back as a big-endian integer, hence the byte swap. -/
def md5_hash32 (s : String) : Nat := bswap32 (md5_words (utf8_bytes s)).1

/-- PendingApprovalRecord from persistence/base.py, polymorphic in the
timestamp type T (datetime in Python; the broker instantiates T with Rat
wall-clock seconds, the serialization theorems keep T abstract together with
its isoformat codec). -/
structure PendingApprovalRecord (T : Type) where
  callback_id : String
  run_id : String
  thread_id : String
  action_id : String
  tool_name : String
  tool_args : PyDict
  risk_class : String
  policy_name : String
  policy_reason : String
  created_at : T
  expires_at : Option T
  metadata : PyDict

/-- Value universe of the dict produced by PendingApprovalRecord.to_dict. -/
inductive DVal where
  | s : String → DVal
  | null : DVal
  | dict : PyDict → DVal

/-- PendingApprovalRecord.to_dict from persistence/base.py, with the stdlib
datetime.isoformat call abstracted as iso. -/
def record_to_dict {T : Type} (iso : T → String)
    (r : PendingApprovalRecord T) : List (String × DVal) :=
  [("callback_id", DVal.s r.callback_id),
   ("run_id", DVal.s r.run_id),
   ("thread_id", DVal.s r.thread_id),
   ("action_id", DVal.s r.action_id),
   ("tool_name", DVal.s r.tool_name),
   ("tool_args", DVal.dict r.tool_args),
   ("risk_class", DVal.s r.risk_class),
   ("policy_name", DVal.s r.policy_name),
   ("policy_reason", DVal.s r.policy_reason),
   ("created_at", DVal.s (iso r.created_at)),
   ("expires_at", match r.expires_at with
                  | some e => DVal.s (iso e)
                  | none => DVal.null),
   ("metadata", DVal.dict r.metadata)]

/-- Read a mandatory string field (KeyError or an ill-typed field is modelled
as failure; Python would raise on the former and construct an ill-typed record
on the latter, which the typed embedding cannot represent). -/
def dval_str (d : List (String × DVal)) (k : String) : Option String :=
  match alist_get d k with
  | some (DVal.s v) => some v
  | _ => none

/-- Read a mandatory dict field. -/
def dval_dict (d : List (String × DVal)) (k : String) : Option PyDict :=
  match alist_get d k with
  | some (DVal.dict v) => some v
  | _ => none

/-- PendingApprovalRecord.from_dict from persistence/base.py, with the stdlib
datetime.fromisoformat call abstracted as parse (Option models its ValueError
on unparseable input).  The expires_at branch mirrors the truthiness test
`if data.get ("expires_at")`: an absent key, None, or an empty string all give
no expiry. -/
def record_from_dict {T : Type} (parse : String → Option T)
    (d : List (String × DVal)) : Option (PendingApprovalRecord T) := do
  let cid ← dval_str d "callback_id"
  let rid ← dval_str d "run_id"
  let tid ← dval_str d "thread_id"
  let aid ← dval_str d "action_id"
  let tname ← dval_str d "tool_name"
  let targs ← dval_dict d "tool_args"
  let risk ← dval_str d "risk_class"
  let pname ← dval_str d "policy_name"
  let preason ← dval_str d "policy_reason"
  let createdStr ← dval_str d "created_at"
  let created ← parse createdStr
  let expires ← (match alist_get d "expires_at" with
    | some (DVal.s e) =>
      if e = "" then some none else (parse e).map some
    | _ => some none)
  let meta := (dval_dict d "metadata").getD []
  some { callback_id := cid, run_id := rid, thread_id := tid, action_id := aid,
         tool_name := tname, tool_args := targs, risk_class := risk,
         policy_name := pname, policy_reason := preason, created_at := created,
         expires_at := expires, metadata := meta }

/-- CircuitState enum from persistent_webhook.py. -/
inductive CircuitState where
  | closed : CircuitState
  | opened : CircuitState
  | halfOpen : CircuitState
deriving DecidableEq

/-- CircuitBreakerConfig dataclass from persistent_webhook.py. -/
structure CircuitBreakerConfig where
  failure_threshold : Nat := 5
  recovery_timeout : Rat := 30
  half_open_max_calls : Nat := 3
deriving DecidableEq

/-- RetryConfig dataclass from persistent_webhook.py. -/
structure RetryConfig where
  max_retries : Nat := 3
  initial_delay : Rat := 1
  max_delay : Rat := 30
  exponential_base : Rat := 2
deriving DecidableEq

/-- The circuit-breaker fields of PersistentWebhookBackend
(_circuit_state, _failure_count, _last_failure_time, _half_open_calls). -/
structure Circuit where
  state : CircuitState
  failure_count : Nat
  last_failure_time : Option Rat
  half_open_calls : Nat
deriving DecidableEq

/-- Initial circuit-breaker state set in PersistentWebhookBackend.__init__. -/
def init_circuit : Circuit :=
  { state := CircuitState.closed, failure_count := 0,
    last_failure_time := none, half_open_calls := 0 }

/-- PersistentWebhookBackend._check_circuit, with the time.time () read passed
as now.  The Python truthiness test `if self._last_failure_time` is modelled
literally: None and the float 0.0 are both falsy. -/
def check_circuit (cfg : CircuitBreakerConfig) (c : Circuit) (now : Rat) :
    Bool × Circuit :=
  match c.state with
  | CircuitState.closed => (true, c)
  | CircuitState.opened =>
    match c.last_failure_time with
    | some t =>
      if t ≠ 0 then
        if now - t ≥ cfg.recovery_timeout then
          (true, { c with state := CircuitState.halfOpen, half_open_calls := 0 })
        else (false, c)
      else (false, c)
    | none => (false, c)
  | CircuitState.halfOpen =>
    if c.half_open_calls < cfg.half_open_max_calls then
      (true, { c with half_open_calls := c.half_open_calls + 1 })
    else (false, c)

/-- PersistentWebhookBackend._record_success. -/
def record_success (c : Circuit) : Circuit :=
  match c.state with
  | CircuitState.halfOpen =>
    { c with state := CircuitState.closed, failure_count := 0 }
  | CircuitState.closed => { c with failure_count := 0 }
  | CircuitState.opened => c

/-- PersistentWebhookBackend._record_failure, with the time.time () read
passed as now. -/
def record_failure (cfg : CircuitBreakerConfig) (c : Circuit) (now : Rat) :
    Circuit :=
  let c1 := { c with failure_count := c.failure_count + 1,
                     last_failure_time := some now }
  if c.state = CircuitState.halfOpen then
    { c1 with state := CircuitState.opened }
  else if c1.failure_count ≥ cfg.failure_threshold then
    { c1 with state := CircuitState.opened }
  else c1

/-- Result of one _send_with_retry run: how many times send_request was
invoked, the asyncio.sleep durations between attempts, and whether a send
succeeded (ok = false models the final `raise last_error`). -/
structure SendResult where
  calls : Nat
  sleeps : List Rat
  ok : Bool
deriving DecidableEq

/-- Loop body of PersistentWebhookBackend._send_with_retry: ok_at k tells
whether the k-th invocation of send_request succeeds, delay is the current
backoff, attempt the loop index, remaining the attempts left. -/
def send_with_retry_aux (base max_delay : Rat) (ok_at : Nat → Bool)
    (delay : Rat) (attempt : Nat) : Nat → SendResult
  | 0 => { calls := 0, sleeps := [], ok := false }
  | Nat.succ r =>
    if ok_at attempt then { calls := 1, sleeps := [], ok := true }
    else if 0 < r then
      let rest := send_with_retry_aux base max_delay ok_at
        (min (delay * base) max_delay) (attempt + 1) r
      { calls := rest.calls + 1, sleeps := delay :: rest.sleeps, ok := rest.ok }
    else { calls := 1, sleeps := [], ok := false }

/-- PersistentWebhookBackend._send_with_retry (the loop runs max_retries + 1
attempts; a sleep with exponential backoff capped at max_delay separates
consecutive attempts). -/
def send_with_retry (rc : RetryConfig) (ok_at : Nat → Bool) : SendResult :=
  send_with_retry_aux rc.exponential_base rc.max_delay ok_at rc.initial_delay 0
    (rc.max_retries + 1)

/-- The delay sequence the specification describes for C6: starting at d,
multiplied by the exponential base after each failure and capped at
max_delay; one entry per sleep between consecutive attempts.  Written from
the claim text, to be compared with the sleeps of send_with_retry. -/
def claimed_delay_seq (base max_delay : Rat) (d : Rat) : Nat → List Rat
  | 0 => []
  | Nat.succ n =>
    d :: claimed_delay_seq base max_delay (min (d * base) max_delay) n

/-- State of one asyncio future in the _pending_futures table. -/
inductive FutureState where
  | pending : FutureState
  | done : Decision → FutureState
deriving DecidableEq

/-- In-memory store contents: callback_id to record, in insertion order
(InMemoryApprovalStore._records; the broker's default store). -/
abbrev MemStore := List (String × PendingApprovalRecord Rat)

/-- PendingApprovalRecord.is_expired with the datetime.now read passed in. -/
def record_is_expired (r : PendingApprovalRecord Rat) (now : Rat) : Bool :=
  match r.expires_at with
  | none => false
  | some e => now > e

/-- InMemoryApprovalStore.get: an expired record is deleted and reported
absent. -/
def mem_get (store : MemStore) (cid : String) (now : Rat) :
    Option (PendingApprovalRecord Rat) × MemStore :=
  match alist_get store cid with
  | some r =>
    if record_is_expired r now then (none, alist_remove store cid)
    else (some r, store)
  | none => (none, store)

/-- InMemoryApprovalStore.delete. -/
def mem_delete (store : MemStore) (cid : String) : Bool × MemStore :=
  match alist_get store cid with
  | some _ => (true, alist_remove store cid)
  | none => (false, store)

/-- InMemoryApprovalStore.put (dict upsert). -/
def mem_put (store : MemStore) (r : PendingApprovalRecord Rat) : MemStore :=
  alist_put store r.callback_id r

/-- Mutable state of a PersistentWebhookBackend instance: the default
in-memory store, the _pending_futures waiter table, and the breaker state. -/
structure Broker where
  store : MemStore
  pending_futures : List (String × FutureState)
  circuit : Circuit

/-- Observable side effects of one request_approval call. -/
inductive BrokerEvent where
  | storePut : String → BrokerEvent
  | sendCall : String → BrokerEvent
  | storeDelete : String → BrokerEvent
deriving DecidableEq

/-- How the await of the waiter future ends: a callback resolved it, the
asyncio.wait_for timeout fired, or an unexpected exception was raised while
waiting (msg is its str). -/
inductive WaitOutcome where
  | resolved : Decision → WaitOutcome
  | timedOut : WaitOutcome
  | raised : String → WaitOutcome
deriving DecidableEq

/-- Environment fixing the nondeterminism of one request_approval call: the
generated callback id (uuid4 truncated to 8 chars), a single wall-clock value
standing for the time.time () / datetime.now reads of the call, the outcome of
each send_request invocation, the message of the last send error, the waiter
outcome, and the measured latency in ms at return. -/
structure ReqEnv where
  callback_id : String
  now : Rat
  send_ok : Nat → Bool
  send_err : String
  wait : WaitOutcome
  elapsed_ms : Rat

/-- Constructor arguments of PersistentWebhookBackend that the claims use. -/
structure BackendConfig where
  timeout_seconds : Rat := 300
  retry : RetryConfig := {}
  breaker : CircuitBreakerConfig := {}
  on_timeout : Option (ApprovalRequest → Decision) := none

/-- The finally block of request_approval:
self._pending_futures.pop (callback_id, None) and store.delete (callback_id). -/
def broker_cleanup (b : Broker) (cid : String) : Broker :=
  { b with pending_futures := alist_remove b.pending_futures cid,
           store := (mem_delete b.store cid).2 }

/-- The default timeout Decision of request_approval.  The f-string renders
the float timeout; the embedding prints the rational (cosmetic only). -/
def timeout_decision (cfg : BackendConfig) (req : ApprovalRequest) : Decision :=
  { action_id := req.action.id, approved := false,
    reason := "Timeout after " ++ toString cfg.timeout_seconds ++ "s",
    tags := [], decided_by := "system:timeout", latency_ms := 0 }

/-- The except-branch Decision of request_approval (decided_by system:error). -/
def error_decision (req : ApprovalRequest) (msg : String) (elapsed : Rat) :
    Decision :=
  { action_id := req.action.id, approved := false,
    reason := "Error: " ++ msg, tags := [], decided_by := "system:error",
    latency_ms := elapsed }

/-- The final latency rewrite of request_approval (Decision rebuilt with
latency_ms measured from start). -/
def with_latency (d : Decision) (elapsed : Rat) : Decision :=
  { action_id := d.action_id, approved := d.approved, reason := d.reason,
    decided_by := d.decided_by, tags := d.tags, latency_ms := elapsed }

/-- The try-block of request_approval after the send (lines 172-219): the
outcome Decision and the breaker transition of the path taken.  none models
the only non-returning path (timeout_seconds = 0, so the bare await blocks,
and no callback ever resolves it). -/
def attempt_outcome (cfg : BackendConfig) (req : ApprovalRequest)
    (env : ReqEnv) (c : Circuit) : Option (Decision × Circuit) :=
  let sr := send_with_retry cfg.retry env.send_ok
  if ¬ sr.ok then
    -- `raise last_error` lands in the except branch: breaker failure plus a
    -- system:error Decision.
    some (error_decision req env.send_err env.elapsed_ms,
          record_failure cfg.breaker c env.now)
  else
    match env.wait with
    | WaitOutcome.resolved d =>
      some (with_latency d env.elapsed_ms, record_success c)
    | WaitOutcome.timedOut =>
      if cfg.timeout_seconds > 0 then
        let d0 := match cfg.on_timeout with
          | some h => h req
          | none => timeout_decision cfg req
        -- the timeout path falls through to _record_success and the latency
        -- rewrite exactly like a resolved decision does.
        some (with_latency d0 env.elapsed_ms, record_success c)
      else none
    | WaitOutcome.raised msg =>
      some (error_decision req msg env.elapsed_ms,
            record_failure cfg.breaker c env.now)

/-- PersistentWebhookBackend.request_approval.  Returns none only when the
call never returns; otherwise some (decision, broker state, event trace).
The clock reads of the call are collapsed into env.now and the measured
latency is env.elapsed_ms.  The finally block (broker_cleanup) applies to
every returning path of the try body, mirroring try/finally. -/
def request_approval (cfg : BackendConfig) (b : Broker)
    (req : ApprovalRequest) (thread_id : String) (env : ReqEnv) :
    Option (Decision × Broker × List BrokerEvent) :=
  let cid := env.callback_id
  let checked := check_circuit cfg.breaker b.circuit env.now
  if ¬ checked.1 then
    some ({ action_id := req.action.id, approved := false,
            reason := "Circuit breaker open - service unavailable",
            tags := [], decided_by := "system:circuit_breaker",
            latency_ms := env.elapsed_ms },
          { b with circuit := checked.2 }, [])
  else
    let expires_at := if cfg.timeout_seconds > 0
      then some (env.now + cfg.timeout_seconds) else none
    let record : PendingApprovalRecord Rat :=
      { callback_id := cid, run_id := req.run_id, thread_id := thread_id,
        action_id := req.action.id, tool_name := req.action.tool_name,
        tool_args := req.action.tool_args,
        risk_class := req.action.risk_class.value,
        policy_name := req.policy_name, policy_reason := req.policy_reason,
        created_at := env.now, expires_at := expires_at, metadata := [] }
    let b1 : Broker :=
      { b with store := mem_put b.store record,
               pending_futures := alist_put b.pending_futures cid
                 FutureState.pending,
               circuit := checked.2 }
    let sr := send_with_retry cfg.retry env.send_ok
    let events := BrokerEvent.storePut cid ::
      List.replicate sr.calls (BrokerEvent.sendCall cid)
      ++ [BrokerEvent.storeDelete cid]
    (attempt_outcome cfg req env checked.2).map
      (fun oc => (oc.1, { broker_cleanup b1 cid with circuit := oc.2 }, events))

/-- PersistentWebhookBackend.handle_callback over the default in-memory
store.  Returns (handled, new state, the Decision the waiter was resolved
with, if any). -/
def handle_callback (b : Broker) (now : Rat) (cid : String) (approved : Bool)
    (reason : String) (decided_by : String) (tags : Option (List String)) :
    Bool × Broker × Option Decision :=
  match alist_get b.pending_futures cid with
  | some FutureState.pending =>
    let got := mem_get b.store cid now
    let action_id := match got.1 with
      | some r => r.action_id
      | none => "unknown"
    let d : Decision :=
      { action_id := action_id, approved := approved,
        reason := if reason = "" then (if approved then "Approved" else "Rejected")
                  else reason,
        tags := tags.getD [], decided_by := decided_by, latency_ms := 0 }
    (true,
     { b with store := got.2,
              pending_futures := alist_put b.pending_futures cid
                (FutureState.done d) },
     some d)
  | _ =>
    let got := mem_get b.store cid now
    match got.1 with
    | some _ => (true, { b with store := (mem_delete got.2 cid).2 }, none)
    | none => (false, { b with store := got.2 }, none)

/-- The pass filter of InMemoryApprovalStore.list_pending: skip expired
records; skip mismatching thread ids when the filter is truthy (None and the
empty string are both falsy in `if thread_id and ...`). -/
def mem_lp_pass (tid : Option String) (now : Rat)
    (r : PendingApprovalRecord Rat) : Bool :=
  (! record_is_expired r now) &&
    match tid with
    | none => true
    | some t => if t = "" then true else r.thread_id = t

/-- The accumulation loop of InMemoryApprovalStore.list_pending: cnt is the
current length of results; the loop breaks after appending once the length
reaches limit. -/
def mem_lp_go (tid : Option String) (now : Rat) (limit cnt : Nat) :
    List (PendingApprovalRecord Rat) → List (PendingApprovalRecord Rat)
  | [] => []
  | r :: rs =>
    if mem_lp_pass tid now r then
      r :: (if cnt + 1 ≥ limit then [] else mem_lp_go tid now limit (cnt + 1) rs)
    else mem_lp_go tid now limit cnt rs

/-- InMemoryApprovalStore.list_pending: iterates the dict values in insertion
order with the datetime.now read passed as now. -/
def mem_list_pending (store : MemStore) (tid : Option String) (limit : Nat)
    (now : Rat) : List (PendingApprovalRecord Rat) :=
  mem_lp_go tid now limit 0 (store.map Prod.snd)

/-- The WHERE clause of the PostgresApprovalStore.list_pending query:
(expires_at IS NULL OR expires_at > NOW ()) plus the optional thread filter
(a falsy thread_id argument selects the unfiltered query). -/
def pg_lp_pass (tid : Option String) (now : Rat)
    (r : PendingApprovalRecord Rat) : Bool :=
  (match r.expires_at with
   | none => true
   | some e => decide (e > now)) &&
    match tid with
    | none => true
    | some t => if t = "" then true else r.thread_id = t

/-- Comparison used by ORDER BY created_at DESC: newer rows first. -/
def newer_first (a b : PendingApprovalRecord Rat) : Bool :=
  b.created_at ≤ a.created_at

/-- Declarative semantics of the PostgresApprovalStore.list_pending SQL query
over the table rows: filter live rows, ORDER BY created_at DESC, LIMIT. -/
def pg_list_pending (rows : List (PendingApprovalRecord Rat))
    (tid : Option String) (limit : Nat) (now : Rat) :
    List (PendingApprovalRecord Rat) :=
  ((rows.filter (pg_lp_pass tid now)).mergeSort newer_first).take limit

/-- str.lower, character by character. -/
def str_lower (s : String) : String := String.map Char.toLower s

/-- Python substring test: sub in s. -/
def chars_infix (p : List Char) : List Char → Bool
  | [] => p.isEmpty
  | c :: rest => List.isPrefixOf p (c :: rest) || chars_infix p rest

/-- Python `sub in s` on strings. -/
def str_contains (sub s : String) : Bool := chars_infix sub.data s.data

/-- Python repr of a float, approximated on rationals: integral values render
with a trailing .0 as CPython does; the exact digit expansion of non-integral
floats is cosmetic and not modelled further. -/
def rat_py_str (q : Rat) : String :=
  if q.den = 1 then toString q.num ++ ".0" else toString q

/-- Python str () of a value (quote = true gives the repr used inside list and
dict displays, where strings are quoted). -/
def py_render : Bool → PyVal → String
  | _, PyVal.vNone => "None"
  | _, PyVal.vBool b => cond b "True" "False"
  | _, PyVal.vInt n => toString n
  | _, PyVal.vFloat q => rat_py_str q
  | false, PyVal.vStr s => s
  | true, PyVal.vStr s => "\x27" ++ s ++ "\x27"
  | _, PyVal.vList l =>
    "[" ++ String.intercalate ", "
      (l.attach.map (fun x => py_render true x.1)) ++ "]"
  | _, PyVal.vDict d =>
    "\x7b" ++ String.intercalate ", "
      (d.attach.map
        (fun x => "\x27" ++ x.1.1 ++ "\x27: " ++ py_render true x.1.2)) ++ "\x7d"
termination_by _ v => sizeOf v
decreasing_by
  · have h := List.sizeOf_lt_of_mem x.2
    simp only [PyVal.vList.sizeOf_spec]
    omega
  · have h := List.sizeOf_lt_of_mem x.2
    have h2 : sizeOf x.1.2 < sizeOf x.1 := by
      obtain ⟨k, v⟩ := x.1
      simp
    simp only [PyVal.vDict.sizeOf_spec]
    omega

/-- Python str () of a value. -/
def py_str (v : PyVal) : String := py_render false v

/-- Python float () coercion: numbers and bools convert; None, lists and
dicts raise TypeError (none).  Numeric strings, unused by the repository,
are not modelled and conservatively fail like the except branch expects. -/
def py_float : PyVal → Option Rat
  | PyVal.vInt n => some n
  | PyVal.vFloat q => some q
  | PyVal.vBool b => some (cond b 1 0)
  | _ => none

/-- Fixed-point rendering with one decimal, for the percent in the audit
reason string (the round-half-even of Python :.1f is not modelled; every
concrete use in this file is exact). -/
def one_decimal (q : Rat) : String :=
  let n : Int := Int.floor (q * 10)
  toString (n / 10) ++ "." ++ toString (n % 10)

/-- Fixed-point rendering with two decimals, for the amounts in the
risk-based reason string. -/
def two_decimals (q : Rat) : String :=
  let n : Int := Int.floor (q * 100)
  let f := n % 100
  toString (n / 100) ++ "." ++ (if f < 10 then "0" else "") ++ toString f

/-- RiskBasedPolicy constructor arguments (risk_based.py); the
sensitive_arg_patterns dict is kept in insertion order. -/
structure RiskBasedPolicy where
  require_approval_for_high : Bool := true
  require_approval_for_medium : Bool := false
  high_risk_tools : List String := []
  sensitive_arg_patterns : List (String × List String) := []
  max_amount_without_approval : Option Rat := none

/-- The sensitive-pattern scan of RiskBasedPolicy.should_request_approval:
first argument name present in tool_args whose lowered str () contains a
lowered pattern, together with that pattern. -/
def find_sensitive (args : PyDict) :
    List (String × List String) → Option (String × String)
  | [] => none
  | (an, pats) :: rest =>
    match alist_get args an with
    | some v =>
      match (pats.find? fun pat =>
          str_contains (str_lower pat) (str_lower (py_str v))) with
      | some pat => some (an, pat)
      | none => find_sensitive args rest
    | none => find_sensitive args rest

/-- The amount scan of RiskBasedPolicy.should_request_approval over the keys
amount, value, price, cost, total: the first float-convertible value above
the threshold (conversion failures fall through like the except branch). -/
def find_amount (args : PyDict) (threshold : Rat) : List String → Option Rat
  | [] => none
  | k :: rest =>
    match alist_get args k with
    | some v =>
      match py_float v with
      | some amt =>
        if amt > threshold then some amt
        else find_amount args threshold rest
      | none => find_amount args threshold rest
    | none => find_amount args threshold rest

/-- RiskBasedPolicy.should_request_approval.  The policy reads nothing from
the workflow state dict; the rule order is the source order: explicit tool
list, risk class, sensitive patterns, amount threshold, default no. -/
def risk_should_request (p : RiskBasedPolicy) (a : Action) (_st : PyDict) :
    Bool × String :=
  if a.tool_name ∈ p.high_risk_tools then
    (true, "Tool \x27" ++ a.tool_name ++ "\x27 is in high-risk tool list")
  else if a.risk_class = RiskClass.high && p.require_approval_for_high then
    (true, "Action has HIGH risk classification")
  else if a.risk_class = RiskClass.medium && p.require_approval_for_medium then
    (true, "Action has MEDIUM risk classification")
  else
    match find_sensitive a.tool_args p.sensitive_arg_patterns with
    | some (an, pat) =>
      (true, "Argument \x27" ++ an ++ "\x27 contains sensitive pattern \x27"
        ++ pat ++ "\x27")
    | none =>
      match p.max_amount_without_approval with
      | some thr =>
        match find_amount a.tool_args thr
            ["amount", "value", "price", "cost", "total"] with
        | some amt =>
          (true, "Amount $" ++ two_decimals amt ++ " exceeds threshold $"
            ++ two_decimals thr)
        | none => (false, "Action does not meet approval criteria")
      | none => (false, "Action does not meet approval criteria")

/-- RiskBasedPolicy.post_decision_update: rejected decisions are appended to
the _risk_policy_rejections list in the state dict. -/
def risk_post_decision (st : PyDict) (a : Action) (d : Decision) : PyDict :=
  if d.approved then st
  else
    let prev := match alist_get st "_risk_policy_rejections" with
      | some (PyVal.vList l) => l
      | _ => []
    let entry := PyVal.vDict
      [("action_id", PyVal.vStr a.id),
       ("tool_name", PyVal.vStr a.tool_name),
       ("risk_class", PyVal.vStr a.risk_class.value),
       ("reason", PyVal.vStr d.reason)]
    alist_put st "_risk_policy_rejections" (PyVal.vList (prev ++ [entry]))

/-- AuditPlusEscalatePolicy constructor arguments (audit_plus_escalate.py).
The seeded random.Random is dead state: should_request_approval samples via
the md5 hash of the action id, never via the rng. -/
structure AuditPolicy where
  audit_sample_rate : Rat := 1 / 10
  anomaly_signals : List String := []
  escalate_on_high_risk : Bool := true
  escalate_on_medium_risk : Bool := false
  consecutive_action_threshold : Nat := 5

/-- Membership of a string in a Python list of arbitrary values (only str
elements can equal a str). -/
def pyval_mem_str (l : List PyVal) (s : String) : Bool :=
  l.any fun v => match v with
    | PyVal.vStr t => t = s
    | _ => false

/-- len (set (recent)) == 1: the list is nonempty and all elements equal. -/
def all_same_one (l : List String) : Bool :=
  match l with
  | [] => false
  | x :: xs => xs.all fun y => y = x

/-- The deterministic audit sample of audit_plus_escalate.py: the first 8 hex
digits of md5 (action id) compared with int (rate * 0xFFFFFFFF). -/
def audit_sample (rate : Rat) (action_id : String) : Bool :=
  (md5_hash32 action_id : Int) < Int.floor (rate * 4294967295)

/-- The anomaly signals of the configured set present in the state dict
entry anomaly_signals (skipped when that entry is not a list, as the
isinstance test does); set-iteration order in the joined reason string is
canonicalized to the configured signal order. -/
def audit_state_matching (p : AuditPolicy) (st : PyDict) : List String :=
  match alist_get st "anomaly_signals" with
  | some (PyVal.vList l) => p.anomaly_signals.filter (pyval_mem_str l)
  | _ => []

/-- The anomaly signals of the configured set present in the action's
context_refs. -/
def audit_action_matching (p : AuditPolicy) (a : Action) : List String :=
  p.anomaly_signals.filter (fun s => a.context_refs.contains s)

/-- The slice self._action_history[-threshold:] after the append (Python
slicing with a -0 bound yields the whole list). -/
def audit_recent (p : AuditPolicy) (hist1 : List String) : List String :=
  if p.consecutive_action_threshold = 0 then hist1
  else hist1.drop (hist1.length - p.consecutive_action_threshold)

/-- AuditPlusEscalatePolicy.should_request_approval, with the mutable
self._action_history passed and returned explicitly (hist).  Rule order
follows the source: risk escalation, state anomaly signals, action
context_refs signals, consecutive-action threshold (which appends to the
history first), md5 audit sample, default no. -/
def audit_should_request (p : AuditPolicy) (hist : List String) (a : Action)
    (st : PyDict) : (Bool × String) × List String :=
  if a.risk_class = RiskClass.high && p.escalate_on_high_risk then
    ((true, "Escalation: HIGH risk action"), hist)
  else if a.risk_class = RiskClass.medium && p.escalate_on_medium_risk then
    ((true, "Escalation: MEDIUM risk action"), hist)
  else
    let state_matching := audit_state_matching p st
    if ¬ state_matching.isEmpty then
      ((true, "Escalation: Anomaly signals detected: "
        ++ String.intercalate ", " state_matching), hist)
    else
      let action_matching := audit_action_matching p a
      if ¬ action_matching.isEmpty then
        ((true, "Escalation: Action flagged with: "
          ++ String.intercalate ", " action_matching), hist)
      else
        let hist1 := hist ++ [a.tool_name]
        if hist1.length ≥ p.consecutive_action_threshold
            && all_same_one (audit_recent p hist1) then
          ((true, "Escalation: " ++ toString p.consecutive_action_threshold
            ++ " consecutive \x27" ++ a.tool_name ++ "\x27 actions"), hist1)
        else if audit_sample p.audit_sample_rate a.id then
          ((true, "Audit: Random sample ("
            ++ one_decimal (p.audit_sample_rate * 100) ++ "% rate)"), hist1)
        else ((false, "No audit or escalation triggered"), hist1)

/-- Convenience predicate: none of the escalation rules of
audit_should_request fires on this call, so control reaches the md5 audit
sample. -/
def audit_escalation_free (p : AuditPolicy) (hist : List String) (a : Action)
    (st : PyDict) : Prop :=
  (decide (a.risk_class = RiskClass.high) && p.escalate_on_high_risk)
    = false ∧
  (decide (a.risk_class = RiskClass.medium) && p.escalate_on_medium_risk)
    = false ∧
  (audit_state_matching p st).isEmpty = true ∧
  (audit_action_matching p a).isEmpty = true ∧
  (decide ((hist ++ [a.tool_name]).length ≥ p.consecutive_action_threshold)
    && all_same_one (audit_recent p (hist ++ [a.tool_name]))) = false

instance (p : AuditPolicy) (hist : List String) (a : Action) (st : PyDict) :
    Decidable (audit_escalation_free p hist a st) := by
  unfold audit_escalation_free
  infer_instance

/-- n repeated calls of a stateful policy step on the same inputs, threading
the internal policy state; returns the n-th result (0-based). -/
def policy_iterate {S : Type} (step : S → (Bool × String) × S) (s0 : S) :
    Nat → (Bool × String) × S
  | 0 => step s0
  | Nat.succ n => step (policy_iterate step s0 n).2

/-- Python truthiness of a value. -/
def py_truthy : PyVal → Bool
  | PyVal.vNone => false
  | PyVal.vBool b => b
  | PyVal.vInt n => n ≠ 0
  | PyVal.vFloat q => q ≠ 0
  | PyVal.vStr s => s ≠ ""
  | PyVal.vList l => ¬ l.isEmpty
  | PyVal.vDict d => ¬ d.isEmpty

/-- A HITLPolicy as the gate sees it: name plus the two methods gate_node
calls (should_request_approval and post_decision_update), acting on the
workflow state dict. -/
structure GatePolicy where
  name : String
  should_request : Action → PyDict → Bool × String
  post_decision : PyDict → Action → Decision → PyDict

/-- RiskBasedPolicy packaged as a GatePolicy (name property "risk_based"). -/
def risk_gate_policy (p : RiskBasedPolicy) : GatePolicy :=
  { name := "risk_based",
    should_request := risk_should_request p,
    post_decision := risk_post_decision }

/-- The resume value delivered by LangGraph when the interrupt is resumed:
a nonempty list whose first element is a response dict, a bare response
dict, or anything else (including an empty list), which gate_node replaces
by the default ignore response. -/
inductive ResumeVal where
  | listed : PyDict → ResumeVal
  | single : PyDict → ResumeVal
  | other : ResumeVal

/-- Environment of one gate_node run: the interrupt resume value and the
uuid4 the Action constructor would draw for an edited action. -/
structure GateEnv where
  resume : ResumeVal
  fresh_id : String

/-- The state dict as gate_node reads it: the special keys run_id and
proposed_action (already normalized to an Action object; gate_node converts
a dict-shaped action with Action (**action)), plus the remaining entries. -/
structure GraphState where
  run_id : String
  proposed_action : Option Action
  vars : PyDict

/-- What gate_node returns: the extra state entries produced by the policy
hook (none on paths that skip the hook), the approval_decision and
hitl_status entries, and whether policy.post_decision_update ran. -/
structure GateOut where
  vars_update : Option PyDict
  approval_decision : Option Decision
  hitl_status : String
  hook_called : Bool

/-- response.get ("type", "ignore"): an absent key defaults to ignore and a
non-string value can never equal any of the three recognized strings. -/
def resume_type (r : PyDict) : String :=
  match alist_get r "type" with
  | some (PyVal.vStr s) => s
  | some _ => ""
  | none => "ignore"

/-- response.get ("args"). -/
def resume_args (r : PyDict) : PyVal :=
  (alist_get r "args").getD PyVal.vNone

/-- Normalization of the resume value (lines 207-212 of
interrupt_nodes.py). -/
def resume_response (rv : ResumeVal) : PyDict :=
  match rv with
  | ResumeVal.listed r => r
  | ResumeVal.single r => r
  | ResumeVal.other => [("type", PyVal.vStr "ignore"), ("args", PyVal.vNone)]

/-- The interrupt gate node of create_interrupt_gate_node (gate_node in
interrupt_nodes.py).  The telemetry logger and the best-effort on_interrupt
callback do not affect the returned state and are omitted.  On the edit
path the rebuilt Action draws a fresh uuid4 id (env.fresh_id); a present but
non-dict "args"/"action" payload entry, which Python would store untyped,
falls back to the original field. -/
def gate_node (p : GatePolicy) (env : GateEnv) (g : GraphState) : GateOut :=
  match g.proposed_action with
  | none =>
    { vars_update := none, approval_decision := none,
      hitl_status := "no_action", hook_called := false }
  | some action =>
    let sr := p.should_request action g.vars
    if ¬ sr.1 then
      { vars_update := none,
        approval_decision := some
          { action_id := action.id, approved := true, reason := sr.2,
            tags := [], decided_by := "policy:" ++ p.name, latency_ms := 0 },
        hitl_status := "auto_approved", hook_called := false }
    else
      let response := resume_response env.resume
      let rtype := resume_type response
      let rargs := resume_args response
      let parsed : Bool × String × String × Action :=
        if rtype = "accept" then
          (true, "Accepted by human", "human:accept", action)
        else if rtype = "edit" then
          let action1 :=
            match rargs with
            | PyVal.vDict d =>
              if (alist_get d "args").isSome then
                { id := env.fresh_id,
                  tool_name := match alist_get d "action" with
                    | some (PyVal.vStr s) => s
                    | _ => action.tool_name,
                  tool_args := match alist_get d "args" with
                    | some (PyVal.vDict nd) => nd
                    | _ => action.tool_args,
                  risk_class := action.risk_class,
                  side_effects := [], rationale := action.rationale,
                  context_refs := [] }
              else action
            | _ => action
          (true, "Accepted with edits", "human:edit", action1)
        else if rtype = "response" then
          (false,
           if py_truthy rargs then py_str rargs else "Rejected with response",
           "human:response", action)
        else (false, "Ignored by human", "human:ignore", action)
      let decision : Decision :=
        { action_id := parsed.2.2.2.id, approved := parsed.1,
          reason := parsed.2.1, tags := [], decided_by := parsed.2.2.1,
          latency_ms := 0 }
      let updated := p.post_decision g.vars parsed.2.2.2 decision
      { vars_update := some updated, approval_decision := some decision,
        hitl_status := "human_decided", hook_called := true }

/-- A tool registry: tool name to implementation; a call either returns a
value or raises (Except.error carries str (e)). -/
abbrev ToolRegistry := List (String × (PyDict → Except String PyVal))

/-- The state keys execute_node reads (proposed_action and approval_decision
already normalized to objects, as the isinstance branches do). -/
structure ExecState where
  run_id : String
  proposed_action : Option Action
  approval_decision : Option Decision

/-- The tool_result dict returned by execute_node (absent keys as none). -/
structure ExecOut where
  success : Bool
  result : Option PyVal
  error : Option String
  action_id : Option String
  rejection_reason : Option String

/-- The lookup-and-execute tail of execute_node (lines 320-361 of
interrupt_nodes.py); the returned Bool records whether the registered tool
function was invoked. -/
def execute_tool (registry : ToolRegistry) (a : Action) : ExecOut × Bool :=
  match alist_get registry a.tool_name with
  | none =>
    ({ success := false, result := none,
       error := some ("Unknown tool: " ++ a.tool_name),
       action_id := some a.id, rejection_reason := none }, false)
  | some f =>
    match f a.tool_args with
    | Except.ok v =>
      ({ success := true, result := some v, error := none,
         action_id := some a.id, rejection_reason := none }, true)
    | Except.error e =>
      ({ success := false, result := none, error := some e,
         action_id := some a.id, rejection_reason := none }, true)

/-- The tool execution node of create_interrupt_tool_node (execute_node in
interrupt_nodes.py).  The Bool records whether the tool function was
invoked. -/
def execute_node (registry : ToolRegistry) (require_approval : Bool)
    (st : ExecState) : ExecOut × Bool :=
  match st.proposed_action with
  | none =>
    ({ success := false, result := none,
       error := some "No action to execute", action_id := none,
       rejection_reason := none }, false)
  | some a =>
    if require_approval then
      match st.approval_decision with
      | none =>
        ({ success := false, result := none,
           error := some "No approval decision found",
           action_id := some a.id, rejection_reason := none }, false)
      | some d =>
        if ¬ d.approved then
          ({ success := false, result := none,
             error := some "Action was rejected", action_id := some a.id,
             rejection_reason := some d.reason }, false)
        else execute_tool registry a
    else execute_tool registry a

/-- The should_execute conditional edge of interrupt_nodes.py. -/
def should_execute (decision : Option Decision) : String :=
  match decision with
  | none => "skip"
  | some d => if d.approved then "execute" else "skip"

theorem alist_get_remove {A : Type} (l : List (String × A)) (k : String) :
    alist_get (alist_remove l k) k = none := by
  induction l with
  | nil => rfl
  | cons hd tl ih =>
    by_cases h : hd.1 = k
    · simpa [alist_remove, List.filter, h] using ih
    · simpa [alist_remove, List.filter, h, alist_get] using ih

/-- C4: The circuit breaker follows the specified state machine.  A fresh
breaker starts CLOSED with a zero failure counter; each recorded failure
increments the counter and stamps the failure time, and from CLOSED the
state becomes OPEN exactly when the counter reaches failure_threshold;
while OPEN every pre-check is rejected until recovery_timeout has elapsed
since the last failure, after which the pre-check transitions to HALF_OPEN
with the probe counter reset; while HALF_OPEN at most half_open_max_calls
pre-checks are permitted, a recorded success transitions to CLOSED and
resets the failure counter, and a recorded failure transitions back to
OPEN with a new failure time. -/
theorem C4_circuit_breaker_state_machine
    (cfg : CircuitBreakerConfig) (c : Circuit) (now t : Rat) :
    (init_circuit.state = CircuitState.closed ∧
      init_circuit.failure_count = 0) ∧
    ((record_failure cfg c now).failure_count = c.failure_count + 1 ∧
      (record_failure cfg c now).last_failure_time = some now) ∧
    (c.state = CircuitState.closed →
      ((record_failure cfg c now).state = CircuitState.opened ↔
        c.failure_count + 1 ≥ cfg.failure_threshold)) ∧
    (c.state = CircuitState.opened → c.last_failure_time = some t → 0 < t →
      (now - t < cfg.recovery_timeout → check_circuit cfg c now = (false, c)) ∧
      (now - t ≥ cfg.recovery_timeout →
        check_circuit cfg c now =
          (true, { c with state := CircuitState.halfOpen,
                          half_open_calls := 0 }))) ∧
    (c.state = CircuitState.halfOpen →
      (c.half_open_calls < cfg.half_open_max_calls →
        check_circuit cfg c now =
          (true, { c with half_open_calls := c.half_open_calls + 1 })) ∧
      (c.half_open_calls ≥ cfg.half_open_max_calls →
        check_circuit cfg c now = (false, c))) ∧
    (c.state = CircuitState.halfOpen →
      (record_success c).state = CircuitState.closed ∧
      (record_success c).failure_count = 0 ∧
      (record_failure cfg c now).state = CircuitState.opened ∧
      (record_failure cfg c now).last_failure_time = some now) := by
  have hrf_count : (record_failure cfg c now).failure_count =
      c.failure_count + 1 := by
    simp only [record_failure]
    split
    · rfl
    · split <;> rfl
  have hrf_time : (record_failure cfg c now).last_failure_time = some now := by
    simp only [record_failure]
    split
    · rfl
    · split <;> rfl
  refine ⟨⟨rfl, rfl⟩, ⟨hrf_count, hrf_time⟩, ?_, ?_, ?_, ?_⟩
  · intro hc
    by_cases h : c.failure_count + 1 ≥ cfg.failure_threshold
    · simp [record_failure, hc, h]
    · simp [record_failure, hc, h]
  · intro hc hlt ht
    have ht0 : t ≠ 0 := ne_of_gt ht
    constructor
    · intro hrec
      simp [check_circuit, hc, hlt, ht0, not_le.mpr hrec]
    · intro hrec
      simp [check_circuit, hc, hlt, ht0, hrec]
  · intro hc
    constructor
    · intro hlt
      simp [check_circuit, hc, hlt]
    · intro hge
      simp [check_circuit, hc, not_lt.mpr hge]
  · intro hc
    exact ⟨by simp [record_success, hc], by simp [record_success, hc],
      by simp [record_failure, hc], hrf_time⟩

/-- C4 witness: the state machine exercised on concrete breakers (a closed
one a single failure from the threshold, an open one before and after the
recovery timeout, and a half-open one receiving a success). -/
theorem C4_circuit_breaker_state_machine_witness :
    (record_failure (CircuitBreakerConfig.mk 5 30 3)
        (Circuit.mk CircuitState.closed 4 (some 10) 0) 40).state =
      CircuitState.opened ∧
    check_circuit (CircuitBreakerConfig.mk 5 30 3)
        (Circuit.mk CircuitState.opened 5 (some 10) 0) 15 =
      (false, Circuit.mk CircuitState.opened 5 (some 10) 0) ∧
    check_circuit (CircuitBreakerConfig.mk 5 30 3)
        (Circuit.mk CircuitState.opened 5 (some 10) 0) 50 =
      (true, Circuit.mk CircuitState.halfOpen 5 (some 10) 0) ∧
    (record_success (Circuit.mk CircuitState.halfOpen 5 (some 10) 1)).state =
      CircuitState.closed := by
  refine ⟨?_, ?_, ?_, ?_⟩
  · exact ((C4_circuit_breaker_state_machine (CircuitBreakerConfig.mk 5 30 3)
      (Circuit.mk CircuitState.closed 4 (some 10) 0) 40 10).2.2.1 rfl).mpr
      (by decide)
  · exact ((C4_circuit_breaker_state_machine (CircuitBreakerConfig.mk 5 30 3)
      (Circuit.mk CircuitState.opened 5 (some 10) 0) 15 10).2.2.2.1 rfl rfl
      (by norm_num)).1 (by norm_num)
  · exact ((C4_circuit_breaker_state_machine (CircuitBreakerConfig.mk 5 30 3)
      (Circuit.mk CircuitState.opened 5 (some 10) 0) 50 10).2.2.2.1 rfl rfl
      (by norm_num)).2 (by norm_num)
  · exact ((C4_circuit_breaker_state_machine (CircuitBreakerConfig.mk 5 30 3)
      (Circuit.mk CircuitState.halfOpen 5 (some 10) 1) 0 0).2.2.2.2.2 rfl).1

theorem send_aux_step (base max_delay : Rat) (ok_at : Nat → Bool) (d : Rat)
    (attempt r : Nat) :
    send_with_retry_aux base max_delay ok_at d attempt (r + 1) =
      if ok_at attempt then { calls := 1, sleeps := [], ok := true }
      else if 0 < r then
        let rest := send_with_retry_aux base max_delay ok_at
          (min (d * base) max_delay) (attempt + 1) r
        { calls := rest.calls + 1, sleeps := d :: rest.sleeps, ok := rest.ok }
      else { calls := 1, sleeps := [], ok := false } := rfl

theorem send_all_fail_aux (base max_delay : Rat) (ok_at : Nat → Bool)
    (hfail : ∀ k, ok_at k = false) :
    ∀ (n attempt : Nat) (d : Rat),
      send_with_retry_aux base max_delay ok_at d attempt (n + 1) =
        { calls := n + 1, sleeps := claimed_delay_seq base max_delay d n,
          ok := false } := by
  intro n
  induction n with
  | zero =>
    intro attempt d
    rw [send_aux_step]
    simp [hfail attempt, claimed_delay_seq]
  | succ m ih =>
    intro attempt d
    rw [send_aux_step]
    simp only [hfail attempt, Bool.false_eq_true, if_false,
      if_pos (Nat.succ_pos m)]
    rw [ih (attempt + 1) (min (d * base) max_delay)]
    simp [claimed_delay_seq]

/-- C6: For a send function failing on every invocation, _send_with_retry
invokes it exactly max_retries + 1 times, sleeping between consecutive
attempts with delays that start at initial_delay, are multiplied by
exponential_base after each failure and are capped at max_delay (the
claimed_delay_seq written from the claim text), and raises on exhaustion;
request_approval converts that, after recording a breaker failure, into a
rejected Decision with decided_by system:error. -/
theorem C6_retry_exhaustion
    (rc : RetryConfig) (ok_at : Nat → Bool) (hfail : ∀ k, ok_at k = false) :
    (send_with_retry rc ok_at).calls = rc.max_retries + 1 ∧
    (send_with_retry rc ok_at).sleeps =
      claimed_delay_seq rc.exponential_base rc.max_delay rc.initial_delay
        rc.max_retries ∧
    (send_with_retry rc ok_at).ok = false ∧
    (∀ (cfg : BackendConfig) (b : Broker) (req : ApprovalRequest)
        (tid : String) (env : ReqEnv)
        (r : Decision × Broker × List BrokerEvent),
      (∀ k, env.send_ok k = false) →
      (check_circuit cfg.breaker b.circuit env.now).1 = true →
      request_approval cfg b req tid env = some r →
      r.1 = error_decision req env.send_err env.elapsed_ms ∧
      r.2.1.circuit = record_failure cfg.breaker
        (check_circuit cfg.breaker b.circuit env.now).2 env.now ∧
      r.2.2 = BrokerEvent.storePut env.callback_id ::
        List.replicate (cfg.retry.max_retries + 1)
          (BrokerEvent.sendCall env.callback_id) ++
        [BrokerEvent.storeDelete env.callback_id]) := by
  have hmain : send_with_retry rc ok_at =
      { calls := rc.max_retries + 1,
        sleeps := claimed_delay_seq rc.exponential_base rc.max_delay
          rc.initial_delay rc.max_retries,
        ok := false } :=
    send_all_fail_aux rc.exponential_base rc.max_delay ok_at hfail
      rc.max_retries 0 rc.initial_delay
  refine ⟨by rw [hmain], by rw [hmain], by rw [hmain], ?_⟩
  intro cfg b req tid env r hsend hck hreq
  have hsr : send_with_retry cfg.retry env.send_ok =
      { calls := cfg.retry.max_retries + 1,
        sleeps := claimed_delay_seq cfg.retry.exponential_base
          cfg.retry.max_delay cfg.retry.initial_delay cfg.retry.max_retries,
        ok := false } :=
    send_all_fail_aux _ _ env.send_ok hsend cfg.retry.max_retries 0 _
  simp only [request_approval, hck, eq_self_iff_true, not_true, if_false,
    attempt_outcome, hsr, Bool.false_eq_true, not_false_eq_true, if_true,
    Option.map_some'] at hreq
  obtain rfl := Option.some.inj hreq
  exact ⟨rfl, rfl, rfl⟩

/-- C6 witness: the default retry configuration makes four calls with the
claimed delay sequence, and a concrete request_approval run over an
always-failing sender returns the system:error Decision. -/
theorem C6_retry_exhaustion_witness :
    (send_with_retry (RetryConfig.mk 3 1 30 2) (fun _ => false)).calls = 4 ∧
    (send_with_retry (RetryConfig.mk 3 1 30 2) (fun _ => false)).sleeps =
      claimed_delay_seq 2 30 1 3 ∧
    request_approval
      (BackendConfig.mk 0 (RetryConfig.mk 0 1 30 2)
        (CircuitBreakerConfig.mk 5 30 3) none)
      (Broker.mk [] [] init_circuit)
      (ApprovalRequest.mk "run6"
        (Action.mk "a6" "tool6" [] RiskClass.low [] "" []) "" "pn" "pr")
      "th" (ReqEnv.mk "cb6" 100 (fun _ => false) "down"
        WaitOutcome.timedOut 5) =
      some (Decision.mk "a6" false "Error: down" [] "system:error" 5,
        Broker.mk [] [] (Circuit.mk CircuitState.closed 1 (some 100) 0),
        [BrokerEvent.storePut "cb6", BrokerEvent.sendCall "cb6",
         BrokerEvent.storeDelete "cb6"]) ∧
    Decision.mk "a6" false "Error: down" [] "system:error" 5 =
      error_decision
        (ApprovalRequest.mk "run6"
          (Action.mk "a6" "tool6" [] RiskClass.low [] "" []) "" "pn" "pr")
        "down" 5 := by
  have h := C6_retry_exhaustion (RetryConfig.mk 3 1 30 2) (fun _ => false)
    (fun _ => rfl)
  refine ⟨h.1, h.2.1, rfl, ?_⟩
  exact (h.2.2.2
    (BackendConfig.mk 0 (RetryConfig.mk 0 1 30 2)
      (CircuitBreakerConfig.mk 5 30 3) none)
    (Broker.mk [] [] init_circuit)
    (ApprovalRequest.mk "run6"
      (Action.mk "a6" "tool6" [] RiskClass.low [] "" []) "" "pn" "pr")
    "th" (ReqEnv.mk "cb6" 100 (fun _ => false) "down" WaitOutcome.timedOut 5)
    (Decision.mk "a6" false "Error: down" [] "system:error" 5,
     Broker.mk [] [] (Circuit.mk CircuitState.closed 1 (some 100) 0),
     [BrokerEvent.storePut "cb6", BrokerEvent.sendCall "cb6",
      BrokerEvent.storeDelete "cb6"])
    (fun _ => rfl) rfl rfl).1

/-- C5: When the pre-check rejects (the breaker is OPEN within
recovery_timeout of the last failure, or HALF_OPEN with its probe budget
exhausted), request_approval returns immediately a rejected Decision with
decided_by system:circuit_breaker, with no store write, no waiter, and no
send attempt (the event trace is empty and the store and waiter table are
returned unchanged). -/
theorem C5_circuit_rejection (cfg : BackendConfig) (b : Broker)
    (req : ApprovalRequest) (tid : String) (env : ReqEnv) :
    (∀ t : Rat, b.circuit.state = CircuitState.opened →
      b.circuit.last_failure_time = some t → 0 < t →
      env.now - t < cfg.breaker.recovery_timeout →
      (check_circuit cfg.breaker b.circuit env.now).1 = false) ∧
    (b.circuit.state = CircuitState.halfOpen →
      cfg.breaker.half_open_max_calls ≤ b.circuit.half_open_calls →
      (check_circuit cfg.breaker b.circuit env.now).1 = false) ∧
    ((check_circuit cfg.breaker b.circuit env.now).1 = false →
      request_approval cfg b req tid env =
        some ({ action_id := req.action.id, approved := false,
                reason := "Circuit breaker open - service unavailable",
                tags := [], decided_by := "system:circuit_breaker",
                latency_ms := env.elapsed_ms },
              { b with circuit := (check_circuit cfg.breaker b.circuit env.now).2 },
              [])) := by
  refine ⟨?_, ?_, ?_⟩
  · intro t hst hlt ht hrec
    have ht0 : t ≠ 0 := ne_of_gt ht
    simp [check_circuit, hst, hlt, ht0, not_le.mpr hrec]
  · intro hst hge
    simp [check_circuit, hst, not_lt.mpr hge]
  · intro hck
    simp [request_approval, hck]

/-- C5 witness: a concrete half-open breaker with its probe budget
exhausted fast-rejects a request, leaving the broker state untouched. -/
theorem C5_circuit_rejection_witness :
    request_approval
      (BackendConfig.mk 300 (RetryConfig.mk 3 1 30 2)
        (CircuitBreakerConfig.mk 5 30 3) none)
      (Broker.mk [] [] (Circuit.mk CircuitState.halfOpen 5 (some 10) 3))
      (ApprovalRequest.mk "run1"
        (Action.mk "a1" "tool1" [] RiskClass.low [] "" []) "" "pn" "pr")
      "th" (ReqEnv.mk "cb1" 100 (fun _ => false) "boom" WaitOutcome.timedOut 5) =
    some ({ action_id := "a1", approved := false,
            reason := "Circuit breaker open - service unavailable",
            tags := [], decided_by := "system:circuit_breaker",
            latency_ms := 5 },
          Broker.mk [] [] (Circuit.mk CircuitState.halfOpen 5 (some 10) 3),
          []) := by
  have h := C5_circuit_rejection
    (BackendConfig.mk 300 (RetryConfig.mk 3 1 30 2)
      (CircuitBreakerConfig.mk 5 30 3) none)
    (Broker.mk [] [] (Circuit.mk CircuitState.halfOpen 5 (some 10) 3))
    (ApprovalRequest.mk "run1"
      (Action.mk "a1" "tool1" [] RiskClass.low [] "" []) "" "pn" "pr")
    "th" (ReqEnv.mk "cb1" 100 (fun _ => false) "boom" WaitOutcome.timedOut 5)
  exact h.2.2 (h.2.1 rfl (by decide))

/-- C1: For every request_approval call that passes the circuit-breaker
pre-check and returns — by callback resolution, timeout, retry exhaustion,
or an unexpected exception — the waiter entry for the generated callback id
has been removed from the pending-futures table and store.delete has been
invoked (the storeDelete event is in the trace). -/
theorem C1_cleanup_always_runs (cfg : BackendConfig) (b : Broker)
    (req : ApprovalRequest) (tid : String) (env : ReqEnv)
    (r : Decision × Broker × List BrokerEvent)
    (hck : (check_circuit cfg.breaker b.circuit env.now).1 = true)
    (hreq : request_approval cfg b req tid env = some r) :
    alist_get r.2.1.pending_futures env.callback_id = none ∧
    BrokerEvent.storeDelete env.callback_id ∈ r.2.2 := by
  simp only [request_approval, hck, eq_self_iff_true, not_true,
    if_false] at hreq
  rw [Option.map_eq_some'] at hreq
  obtain ⟨oc, -, rfl⟩ := hreq
  refine ⟨?_, by simp⟩
  simp [broker_cleanup, alist_get_remove]

/-- C1 witness: a concrete run whose send always fails still ends with the
waiter removed and the store delete performed. -/
theorem C1_cleanup_always_runs_witness :
    request_approval
      (BackendConfig.mk 0 (RetryConfig.mk 0 1 30 2)
        (CircuitBreakerConfig.mk 5 30 3) none)
      (Broker.mk [] [] init_circuit)
      (ApprovalRequest.mk "run1"
        (Action.mk "a1" "tool1" [] RiskClass.low [] "" []) "" "pn" "pr")
      "th" (ReqEnv.mk "cb1" 100 (fun _ => false) "boom"
        WaitOutcome.timedOut 5) =
      some (Decision.mk "a1" false "Error: boom" [] "system:error" 5,
        Broker.mk [] [] (Circuit.mk CircuitState.closed 1 (some 100) 0),
        [BrokerEvent.storePut "cb1", BrokerEvent.sendCall "cb1",
         BrokerEvent.storeDelete "cb1"]) ∧
    alist_get (Broker.mk [] []
      (Circuit.mk CircuitState.closed 1 (some 100) 0)).pending_futures
      "cb1" = none ∧
    BrokerEvent.storeDelete "cb1" ∈
      [BrokerEvent.storePut "cb1", BrokerEvent.sendCall "cb1",
       BrokerEvent.storeDelete "cb1"] := by
  have h := C1_cleanup_always_runs
    (BackendConfig.mk 0 (RetryConfig.mk 0 1 30 2)
      (CircuitBreakerConfig.mk 5 30 3) none)
    (Broker.mk [] [] init_circuit)
    (ApprovalRequest.mk "run1"
      (Action.mk "a1" "tool1" [] RiskClass.low [] "" []) "" "pn" "pr")
    "th" (ReqEnv.mk "cb1" 100 (fun _ => false) "boom" WaitOutcome.timedOut 5)
    (Decision.mk "a1" false "Error: boom" [] "system:error" 5,
     Broker.mk [] [] (Circuit.mk CircuitState.closed 1 (some 100) 0),
     [BrokerEvent.storePut "cb1", BrokerEvent.sendCall "cb1",
      BrokerEvent.storeDelete "cb1"]) rfl rfl
  exact ⟨rfl, h.1, h.2⟩

theorem alist_get_put {A : Type} (l : List (String × A)) (k : String) (v : A) :
    alist_get (alist_put l k v) k = some v := by
  induction l with
  | nil => simp [alist_put, alist_get]
  | cons hd tl ih =>
    obtain ⟨k0, v0⟩ := hd
    by_cases h : k0 = k
    · simp [alist_put, alist_get, h]
    · simp [alist_put, alist_get, h, ih]

theorem mem_delete_absent (s : MemStore) (cid : String) :
    alist_get (mem_delete s cid).2 cid = none := by
  unfold mem_delete
  cases h : alist_get s cid with
  | some r => simp [alist_get_remove]
  | none => simp [h]

theorem mem_get_absent (s : MemStore) (cid : String) (now : Rat)
    (h : alist_get s cid = none) : mem_get s cid now = (none, s) := by
  simp [mem_get, h]

/-- C2: handle_callback returns true and resolves the waiter with a
Decision whose reason defaults to Approved or Rejected when none is
supplied, when an unresolved in-memory waiter exists; returns true without
resolving a waiter when no waiter exists but a live durable record does;
returns false when neither exists; and for two successive calls for the
same id around request_approval's completed cleanup, the first resolution
wins and the later call returns false. -/
theorem C2_handle_callback (b : Broker) (now : Rat) (cid : String)
    (approved : Bool) (reason decided_by : String)
    (tags : Option (List String)) :
    (alist_get b.pending_futures cid = some FutureState.pending →
      (handle_callback b now cid approved reason decided_by tags).1 = true ∧
      ∃ d : Decision,
        (handle_callback b now cid approved reason decided_by tags).2.2 =
          some d ∧
        alist_get (handle_callback b now cid approved reason decided_by
          tags).2.1.pending_futures cid = some (FutureState.done d) ∧
        d.approved = approved ∧
        d.reason = (if reason = "" then
          (if approved then "Approved" else "Rejected") else reason) ∧
        d.decided_by = decided_by) ∧
    (alist_get b.pending_futures cid = none →
      (mem_get b.store cid now).1.isSome →
      (handle_callback b now cid approved reason decided_by tags).1 = true ∧
      (handle_callback b now cid approved reason decided_by tags).2.2 =
        none ∧
      (handle_callback b now cid approved reason decided_by
        tags).2.1.pending_futures = b.pending_futures) ∧
    (alist_get b.pending_futures cid = none →
      (mem_get b.store cid now).1 = none →
      (handle_callback b now cid approved reason decided_by tags).1 =
        false) ∧
    (alist_get b.pending_futures cid = some FutureState.pending →
      (handle_callback b now cid approved reason decided_by tags).1 = true ∧
      (handle_callback
        (broker_cleanup
          (handle_callback b now cid approved reason decided_by tags).2.1
          cid)
        now cid approved reason decided_by tags).1 = false) := by
  refine ⟨?_, ?_, ?_, ?_⟩
  · intro h
    refine ⟨by simp [handle_callback, h],
      ⟨{ action_id := match (mem_get b.store cid now).1 with
           | some r => r.action_id
           | none => "unknown",
         approved := approved,
         reason := if reason = "" then
           (if approved then "Approved" else "Rejected") else reason,
         tags := tags.getD [], decided_by := decided_by, latency_ms := 0 },
       by simp [handle_callback, h], ?_, rfl, rfl, rfl⟩⟩
    simp [handle_callback, h, alist_get_put]
  · intro h hrec
    obtain ⟨rec, hr⟩ := Option.isSome_iff_exists.mp hrec
    refine ⟨?_, ?_, ?_⟩ <;> simp [handle_callback, h, hr]
  · intro h hrec
    simp [handle_callback, h, hrec]
  · intro h
    refine ⟨by simp [handle_callback, h], ?_⟩
    set b2 := broker_cleanup
      (handle_callback b now cid approved reason decided_by tags).2.1 cid
      with hb2
    have h1 : alist_get b2.pending_futures cid = none := by
      rw [hb2]
      simp [broker_cleanup, alist_get_remove]
    have h2 : alist_get b2.store cid = none := by
      rw [hb2]
      simp [broker_cleanup, mem_delete_absent]
    simp [handle_callback, h1, mem_get_absent _ _ now h2]

/-- C2 witness: on a concrete broker holding one pending waiter and its
record, the first callback resolves with the defaulted Approved reason and
a second callback after cleanup returns false. -/
theorem C2_handle_callback_witness :
    (handle_callback
      (Broker.mk
        [("cb1", PendingApprovalRecord.mk "cb1" "r1" "th" "a1" "t1" []
          "low" "pn" "pr" (0 : Rat) none [])]
        [("cb1", FutureState.pending)] init_circuit)
      50 "cb1" true "" "human" none).1 = true ∧
    (handle_callback
      (broker_cleanup
        (handle_callback
          (Broker.mk
            [("cb1", PendingApprovalRecord.mk "cb1" "r1" "th" "a1" "t1" []
              "low" "pn" "pr" (0 : Rat) none [])]
            [("cb1", FutureState.pending)] init_circuit)
          50 "cb1" true "" "human" none).2.1
        "cb1")
      50 "cb1" true "" "human" none).1 = false ∧
    (handle_callback
      (Broker.mk
        [("cb1", PendingApprovalRecord.mk "cb1" "r1" "th" "a1" "t1" []
          "low" "pn" "pr" (0 : Rat) none [])]
        [("cb1", FutureState.pending)] init_circuit)
      50 "cb1" true "" "human" none).2.2 =
      some (Decision.mk "a1" true "Approved" [] "human" 0) := by
  have h := C2_handle_callback
    (Broker.mk
      [("cb1", PendingApprovalRecord.mk "cb1" "r1" "th" "a1" "t1" []
        "low" "pn" "pr" (0 : Rat) none [])]
      [("cb1", FutureState.pending)] init_circuit)
    50 "cb1" true "" "human" none
  obtain ⟨-, -, -, hd⟩ := h
  exact ⟨(hd rfl).1, (hd rfl).2, rfl⟩

/-- C3: With require_approval enabled, execute_node returns a failure
tool_result carrying an error message and never invokes the tool whenever
the approval decision is missing or not approved, and conversely the tool
function is invoked only when an approved decision is present. -/
theorem C3_execute_requires_approval (registry : ToolRegistry)
    (st : ExecState) :
    ((st.approval_decision = none ∨
        (∃ d, st.approval_decision = some d ∧ d.approved = false)) →
      (execute_node registry true st).2 = false ∧
      (execute_node registry true st).1.success = false ∧
      (execute_node registry true st).1.error.isSome) ∧
    ((execute_node registry true st).2 = true →
      ∃ d, st.approval_decision = some d ∧ d.approved = true) := by
  constructor
  · rintro (hd | ⟨d, hd, hap⟩)
    · cases ha : st.proposed_action with
      | none => simp [execute_node, ha]
      | some a => simp [execute_node, ha, hd]
    · cases ha : st.proposed_action with
      | none => simp [execute_node, ha]
      | some a => simp [execute_node, ha, hd, hap]
  · intro hcall
    cases ha : st.proposed_action with
    | none => simp [execute_node, ha] at hcall
    | some a =>
      cases hd : st.approval_decision with
      | none => simp [execute_node, ha, hd] at hcall
      | some d =>
        by_cases hap : d.approved = true
        · exact ⟨d, rfl, hap⟩
        · rw [Bool.not_eq_true] at hap
          simp [execute_node, ha, hd, hap] at hcall

/-- C3 witness: a concrete rejected decision yields a failure tool_result
and the registered tool is not called. -/
theorem C3_execute_requires_approval_witness :
    (execute_node [("t1", fun _ => Except.ok PyVal.vNone)] true
      (ExecState.mk "run1"
        (some (Action.mk "a1" "t1" [] RiskClass.low [] "" []))
        (some (Decision.mk "a1" false "Rejected" [] "human" 0)))).2 = false ∧
    (execute_node [("t1", fun _ => Except.ok PyVal.vNone)] true
      (ExecState.mk "run1"
        (some (Action.mk "a1" "t1" [] RiskClass.low [] "" []))
        (some (Decision.mk "a1" false "Rejected" [] "human" 0)))).1.success =
      false ∧
    (execute_node [("t1", fun _ => Except.ok PyVal.vNone)] true
      (ExecState.mk "run1"
        (some (Action.mk "a1" "t1" [] RiskClass.low [] "" []))
        (some (Decision.mk "a1" false "Rejected" [] "human"
          0)))).1.error.isSome :=
  (C3_execute_requires_approval [("t1", fun _ => Except.ok PyVal.vNone)]
    (ExecState.mk "run1"
      (some (Action.mk "a1" "t1" [] RiskClass.low [] "" []))
      (some (Decision.mk "a1" false "Rejected" [] "human" 0)))).1
    (Or.inr ⟨Decision.mk "a1" false "Rejected" [] "human" 0, rfl, rfl⟩)

/-- C8 counterexample: on the auto-approved path the gate produces a
Decision but returns without invoking the policy post_decision_update
hook, contradicting the claim that the hook runs on every
decision-producing path. -/
theorem C8_hook_counterexample :
    (gate_node (risk_gate_policy (RiskBasedPolicy.mk true false [] [] none))
      (GateEnv.mk ResumeVal.other "fresh")
      (GraphState.mk "run1"
        (some (Action.mk "a1" "t1" [] RiskClass.low [] "" [])) [])).approval_decision.isSome = true ∧
    (gate_node (risk_gate_policy (RiskBasedPolicy.mk true false [] [] none))
      (GateEnv.mk ResumeVal.other "fresh")
      (GraphState.mk "run1"
        (some (Action.mk "a1" "t1" [] RiskClass.low [] "" [])) [])).hitl_status = "auto_approved" ∧
    (gate_node (risk_gate_policy (RiskBasedPolicy.mk true false [] [] none))
      (GateEnv.mk ResumeVal.other "fresh")
      (GraphState.mk "run1"
        (some (Action.mk "a1" "t1" [] RiskClass.low [] "" [])) [])).hook_called = false :=
  ⟨rfl, rfl, rfl⟩

/-- C8 amended: the gate invokes the policy post_decision_update hook
exactly on the human-decided path; the auto-approved path produces a
Decision but returns without invoking the hook. -/
theorem C8_hook_on_human_path_only (p : GatePolicy) (env : GateEnv)
    (g : GraphState) :
    ((gate_node p env g).hook_called = true ↔
      (gate_node p env g).hitl_status = "human_decided") ∧
    ((gate_node p env g).hitl_status = "auto_approved" →
      (gate_node p env g).approval_decision.isSome = true ∧
      (gate_node p env g).hook_called = false) := by
  cases ha : g.proposed_action with
  | none =>
    constructor
    · simp only [gate_node, ha]
      constructor
      · intro h
        exact absurd h (by simp)
      · intro h
        exact absurd h (by simp)
    · intro h
      rw [gate_node] at h
      simp only [ha] at h
      exact absurd h (by simp)
  | some a =>
    by_cases hneeds : (p.should_request a g.vars).1 = true
    · constructor
      · simp [gate_node, ha, hneeds]
      · intro h
        rw [gate_node] at h
        simp only [ha, hneeds] at h
        simp at h
    · rw [Bool.not_eq_true] at hneeds
      constructor
      · simp [gate_node, ha, hneeds]
      · intro h
        simp [gate_node, ha, hneeds]

theorem mem_lp_go_take (tid : Option String) (now : Rat) (limit : Nat) :
    ∀ (l : List (PendingApprovalRecord Rat)) (cnt : Nat),
      mem_lp_go tid now limit cnt l =
        (l.filter (mem_lp_pass tid now)).take (max (limit - cnt) 1) := by
  intro l
  induction l with
  | nil => intro cnt; simp [mem_lp_go]
  | cons r rs ih =>
    intro cnt
    by_cases hp : mem_lp_pass tid now r = true
    · by_cases hstop : cnt + 1 ≥ limit
      · have h1 : max (limit - cnt) 1 = 1 := by omega
        simp [mem_lp_go, hp, hstop, List.filter, h1]
      · have h2 : max (limit - cnt) 1 = limit - cnt := by omega
        have h3 : max (limit - (cnt + 1)) 1 = limit - (cnt + 1) := by omega
        have h4 : limit - cnt = (limit - (cnt + 1)) + 1 := by omega
        simp only [mem_lp_go, hp, if_true, hstop, if_false, ih (cnt + 1),
          List.filter, h2, h3, h4, List.take_succ_cons]
        try simp
    · simp [mem_lp_go, hp, List.filter, ih cnt]

/-- C8 witness: the amended theorem exercised on a concrete auto-approved
run (hook skipped) and a concrete human-decided run (hook invoked). -/
theorem C8_hook_on_human_path_only_witness :
    ((gate_node (risk_gate_policy (RiskBasedPolicy.mk true false [] [] none))
      (GateEnv.mk ResumeVal.other "f1")
      (GraphState.mk "runA"
        (some (Action.mk "a2" "t2" [] RiskClass.low [] "" []))
        [])).approval_decision.isSome = true ∧
     (gate_node (risk_gate_policy (RiskBasedPolicy.mk true false [] [] none))
      (GateEnv.mk ResumeVal.other "f1")
      (GraphState.mk "runA"
        (some (Action.mk "a2" "t2" [] RiskClass.low [] "" []))
        [])).hook_called = false) ∧
    (gate_node (risk_gate_policy
        (RiskBasedPolicy.mk true false ["t3"] [] none))
      (GateEnv.mk ResumeVal.other "f2")
      (GraphState.mk "runB"
        (some (Action.mk "a3" "t3" [] RiskClass.low [] "" []))
        [])).hook_called = true := by
  refine ⟨?_, ?_⟩
  · exact (C8_hook_on_human_path_only
      (risk_gate_policy (RiskBasedPolicy.mk true false [] [] none))
      (GateEnv.mk ResumeVal.other "f1")
      (GraphState.mk "runA"
        (some (Action.mk "a2" "t2" [] RiskClass.low [] "" [])) [])).2 rfl
  · exact (C8_hook_on_human_path_only
      (risk_gate_policy (RiskBasedPolicy.mk true false ["t3"] [] none))
      (GateEnv.mk ResumeVal.other "f2")
      (GraphState.mk "runB"
        (some (Action.mk "a3" "t3" [] RiskClass.low [] "" [])) [])).1.mpr rfl

/-- C9 counterexample: the in-memory store returns pending records in
insertion order, so with an older record inserted first list_pending
returns it first even though a newer record exists — not newest-first as
claimed. -/
theorem C9_memory_counterexample :
    mem_list_pending
      [("c1", PendingApprovalRecord.mk "c1" "r1" "th" "a1" "t1" [] "low"
        "pn" "pr" (0 : Rat) none []),
       ("c2", PendingApprovalRecord.mk "c2" "r2" "th" "a2" "t2" [] "low"
        "pn" "pr" (1 : Rat) none [])]
      none 100 0 =
      [PendingApprovalRecord.mk "c1" "r1" "th" "a1" "t1" [] "low"
        "pn" "pr" (0 : Rat) none [],
       PendingApprovalRecord.mk "c2" "r2" "th" "a2" "t2" [] "low"
        "pn" "pr" (1 : Rat) none []] ∧
    ((0 : Rat) < 1) :=
  ⟨rfl, by norm_num⟩

/-- C9 amended: both implementations exclude expired records and respect
the limit, but only the Postgres query orders newest-first; the in-memory
store returns the non-expired records in insertion order, truncated to the
limit (a non-positive limit still yields one record, because the loop
checks the length only after appending). -/
theorem C9_list_pending_amended (st : MemStore) (tid : Option String)
    (limit : Nat) (now : Rat) (rows : List (PendingApprovalRecord Rat)) :
    (mem_list_pending st tid limit now =
      ((st.map Prod.snd).filter (mem_lp_pass tid now)).take (max limit 1)) ∧
    (∀ r ∈ mem_list_pending st tid limit now,
      record_is_expired r now = false) ∧
    (pg_list_pending rows tid limit now).Pairwise
      (fun a b => b.created_at ≤ a.created_at) ∧
    (∀ r ∈ pg_list_pending rows tid limit now, pg_lp_pass tid now r = true) ∧
    (pg_list_pending rows tid limit now).length ≤ limit := by
  have hmem : mem_list_pending st tid limit now =
      ((st.map Prod.snd).filter (mem_lp_pass tid now)).take (max limit 1) := by
    have := mem_lp_go_take tid now limit (st.map Prod.snd) 0
    simpa [mem_list_pending] using this
  refine ⟨hmem, ?_, ?_, ?_, ?_⟩
  · intro r hr
    rw [hmem] at hr
    have hr2 := List.mem_of_mem_take hr
    have hr3 := (List.mem_filter.mp hr2).2
    simp only [mem_lp_pass, Bool.and_eq_true, Bool.not_eq_true'] at hr3
    exact hr3.1
  · have hs : ((rows.filter (pg_lp_pass tid now)).mergeSort
        newer_first).Pairwise (fun a b => newer_first a b = true) := by
      apply List.sorted_mergeSort
      · intro a b c hab hbc
        simp only [newer_first, decide_eq_true_eq] at hab hbc ⊢
        exact le_trans hbc hab
      · intro a b
        simp only [newer_first, Bool.or_eq_true, decide_eq_true_eq]
        exact le_total b.created_at a.created_at
    have hst := hs.sublist (List.take_sublist limit _)
    refine List.Pairwise.imp ?_ hst
    intro a b h
    simp only [newer_first, decide_eq_true_eq] at h
    exact h
  · intro r hr
    have hr2 := List.mem_of_mem_take hr
    rw [List.mem_mergeSort] at hr2
    exact (List.mem_filter.mp hr2).2
  · exact List.length_take_le limit _

/-- C9 witness: a concrete store exercising the expiry exclusion and the
limit bound. -/
theorem C9_list_pending_amended_witness :
    record_is_expired (PendingApprovalRecord.mk "c1" "r1" "th" "a1" "t1" []
      "low" "pn" "pr" (0 : Rat) none []) 0 = false ∧
    (pg_list_pending
      [PendingApprovalRecord.mk "c1" "r1" "th" "a1" "t1" [] "low"
        "pn" "pr" (0 : Rat) none []] none 100 0).length ≤ 100 := by
  have h := C9_list_pending_amended
    [("c1", PendingApprovalRecord.mk "c1" "r1" "th" "a1" "t1" [] "low"
      "pn" "pr" (0 : Rat) none [])] none 100 0
    [PendingApprovalRecord.mk "c1" "r1" "th" "a1" "t1" [] "low"
      "pn" "pr" (0 : Rat) none []]
  refine ⟨h.2.1 _ ?_, h.2.2.2.2⟩
  rw [show mem_list_pending
    [("c1", PendingApprovalRecord.mk "c1" "r1" "th" "a1" "t1" [] "low"
      "pn" "pr" (0 : Rat) none [])] none 100 0 =
    [PendingApprovalRecord.mk "c1" "r1" "th" "a1" "t1" [] "low"
      "pn" "pr" (0 : Rat) none []] from rfl]
  exact List.mem_singleton.mpr rfl

/-- C10: from_dict inverts to_dict field for field on every
PendingApprovalRecord, including the absent-expiry case, for any timestamp
codec satisfying the documented stdlib contract for timezone-aware
datetimes (fromisoformat inverts isoformat, whose output is nonempty). -/
theorem C10_record_dict_roundtrip {T : Type} (iso : T → String)
    (parse : String → Option T)
    (hinv : ∀ t, parse (iso t) = some t)
    (hne : ∀ t, iso t ≠ "")
    (r : PendingApprovalRecord T) :
    record_from_dict parse (record_to_dict iso r) = some r := by
  obtain ⟨cid, rid, tid, aid, tn, ta, rc, pn, pr, ca, ea, md⟩ := r
  cases ea with
  | none =>
    simp [record_to_dict, record_from_dict, dval_str, dval_dict, alist_get,
      hinv]
  | some e =>
    simp [record_to_dict, record_from_dict, dval_str, dval_dict, alist_get,
      hinv, hne e]

/-- C10 witness: round trips of two concrete records, one with an expiry
timestamp and one without, under a concrete two-value codec satisfying the
isoformat contract. -/
theorem C10_record_dict_roundtrip_witness :
    record_from_dict
      (fun s => if s = "T" then some true
                else if s = "F" then some false else none)
      (record_to_dict (fun b => cond b "T" "F")
        (PendingApprovalRecord.mk "c" "r" "t" "a" "n" [] "low" "p" "q"
          true (some false) [("k", PyVal.vInt 1)])) =
      some (PendingApprovalRecord.mk "c" "r" "t" "a" "n" [] "low" "p" "q"
        true (some false) [("k", PyVal.vInt 1)]) ∧
    record_from_dict
      (fun s => if s = "T" then some true
                else if s = "F" then some false else none)
      (record_to_dict (fun b => cond b "T" "F")
        (PendingApprovalRecord.mk "c" "r" "t" "a" "n" [] "low" "p" "q"
          false none [])) =
      some (PendingApprovalRecord.mk "c" "r" "t" "a" "n" [] "low" "p" "q"
        false none []) := by
  constructor <;>
    exact C10_record_dict_roundtrip (fun b => cond b "T" "F")
      (fun s => if s = "T" then some true
                else if s = "F" then some false else none)
      (by intro t; cases t <;> rfl)
      (by intro t; cases t <;> decide) _

set_option maxRecDepth 100000 in
theorem md5_hash32_act2 : md5_hash32 "act-2" = 2419224194 := by decide

theorem audit_sample_act2_false :
    audit_sample (1 / 10 : Rat) "act-2" = false := by
  simp only [audit_sample, md5_hash32_act2, decide_eq_false_iff_not, not_lt]
  norm_num

theorem audit_free_step (p : AuditPolicy) (hist : List String) (a : Action)
    (st : PyDict) (hfree : audit_escalation_free p hist a st) :
    (audit_should_request p hist a st).1 =
      (if audit_sample p.audit_sample_rate a.id then
        (true, "Audit: Random sample ("
          ++ one_decimal (p.audit_sample_rate * 100) ++ "% rate)")
      else (false, "No audit or escalation triggered")) ∧
    (audit_should_request p hist a st).2 = hist ++ [a.tool_name] := by
  obtain ⟨h1, h2, h3, h4, h5⟩ := hfree
  constructor
  · simp only [audit_should_request, h1, h2, h3, h4, h5, Bool.false_eq_true,
      eq_self_iff_true, not_true, if_false]
    split <;> rfl
  · simp only [audit_should_request, h1, h2, h3, h4, h5, Bool.false_eq_true,
      eq_self_iff_true, not_true, if_false]
    split <;> rfl

/-- C7 counterexample: with the default AuditPlusEscalatePolicy
configuration, five repeated calls with an identical action (id act-2, not
in the md5 audit sample) and identical state flip from no-approval to
approval at the fifth call, because each call appends to the mutable
action history and the consecutive-action threshold then fires — so
repeated calls with identical (action, state) do not return identical
results. -/
theorem C7_policy_determinism_counterexample :
    (policy_iterate
      (fun h => audit_should_request {} h
        (Action.mk "act-2" "ping" [] RiskClass.low [] "" []) []) [] 0).1.1 =
      false ∧
    (policy_iterate
      (fun h => audit_should_request {} h
        (Action.mk "act-2" "ping" [] RiskClass.low [] "" []) []) [] 4).1.1 =
      true := by
  have hsample : audit_sample
      (AuditPolicy.audit_sample_rate {})
      (Action.mk "act-2" "ping" [] RiskClass.low [] "" []).id = false :=
    audit_sample_act2_false
  have f0 : audit_escalation_free {} []
      (Action.mk "act-2" "ping" [] RiskClass.low [] "" []) [] := by decide
  have f1 : audit_escalation_free {} ["ping"]
      (Action.mk "act-2" "ping" [] RiskClass.low [] "" []) [] := by decide
  have f2 : audit_escalation_free {} ["ping", "ping"]
      (Action.mk "act-2" "ping" [] RiskClass.low [] "" []) [] := by decide
  have f3 : audit_escalation_free {} ["ping", "ping", "ping"]
      (Action.mk "act-2" "ping" [] RiskClass.low [] "" []) [] := by decide
  have s0 := audit_free_step _ _ _ _ f0
  have s1 := audit_free_step _ _ _ _ f1
  have s2 := audit_free_step _ _ _ _ f2
  have s3 := audit_free_step _ _ _ _ f3
  constructor
  · show (audit_should_request {} []
      (Action.mk "act-2" "ping" [] RiskClass.low [] "" []) []).1.1 = false
    have hc : ¬ (audit_sample
        (AuditPolicy.audit_sample_rate {})
        (Action.mk "act-2" "ping" [] RiskClass.low [] "" []).id = true) := by
      intro h
      rw [hsample] at h
      exact absurd h (by decide)
    rw [s0.1, if_neg hc]
  · have e0 : (policy_iterate
        (fun h => audit_should_request {} h
          (Action.mk "act-2" "ping" [] RiskClass.low [] "" []) []) [] 0).2 =
        ["ping"] := by
      simpa using s0.2
    have e1 : (policy_iterate
        (fun h => audit_should_request {} h
          (Action.mk "act-2" "ping" [] RiskClass.low [] "" []) []) [] 1).2 =
        ["ping", "ping"] := by
      show (audit_should_request {} (policy_iterate _ [] 0).2 _ []).2 = _
      rw [e0, s1.2]
      rfl
    have e2 : (policy_iterate
        (fun h => audit_should_request {} h
          (Action.mk "act-2" "ping" [] RiskClass.low [] "" []) []) [] 2).2 =
        ["ping", "ping", "ping"] := by
      show (audit_should_request {} (policy_iterate _ [] 1).2 _ []).2 = _
      rw [e1, s2.2]
      rfl
    have e3 : (policy_iterate
        (fun h => audit_should_request {} h
          (Action.mk "act-2" "ping" [] RiskClass.low [] "" []) []) [] 3).2 =
        ["ping", "ping", "ping", "ping"] := by
      show (audit_should_request {} (policy_iterate _ [] 2).2 _ []).2 = _
      rw [e2, s3.2]
      rfl
    show (audit_should_request {} (policy_iterate _ [] 3).2 _ []).1.1 = true
    rw [e3]
    decide

/-- C7 amended: RiskBasedPolicy is deterministic across repeated calls
(it keeps no mutable policy state); AuditPlusEscalatePolicy is
deterministic only once its internal action history is held fixed: when no
escalation rule fires, the result is exactly the md5-hash audit sample of
the action id, so the sampling outcome depends only on the stable hash of
the action id (and the configured rate), not on the state, the history, or
any random draw. -/
theorem C7_policy_determinism_amended :
    (∀ (p : RiskBasedPolicy) (a : Action) (st : PyDict) (n m : Nat),
      (policy_iterate (fun _ : Unit => (risk_should_request p a st, ()))
        () n).1 =
      (policy_iterate (fun _ : Unit => (risk_should_request p a st, ()))
        () m).1) ∧
    (∀ (p : AuditPolicy) (hist : List String) (a : Action) (st : PyDict),
      audit_escalation_free p hist a st →
      (audit_should_request p hist a st).1 =
        (if audit_sample p.audit_sample_rate a.id then
          (true, "Audit: Random sample ("
            ++ one_decimal (p.audit_sample_rate * 100) ++ "% rate)")
        else (false, "No audit or escalation triggered")) ∧
      (audit_should_request p hist a st).2 = hist ++ [a.tool_name]) ∧
    (∀ (p : AuditPolicy) (h1 h2 : List String) (a1 a2 : Action)
        (st1 st2 : PyDict),
      audit_escalation_free p h1 a1 st1 →
      audit_escalation_free p h2 a2 st2 →
      a1.id = a2.id →
      (audit_should_request p h1 a1 st1).1.1 =
        (audit_should_request p h2 a2 st2).1.1) := by
  refine ⟨?_, audit_free_step, ?_⟩
  · intro p a st n m
    cases n <;> cases m <;> rfl
  · intro p h1 h2 a1 a2 st1 st2 hf1 hf2 hid
    obtain ⟨hx1, -⟩ := audit_free_step p h1 a1 st1 hf1
    obtain ⟨hx2, -⟩ := audit_free_step p h2 a2 st2 hf2
    simp only [hx1, hx2, hid]

/-- C7 witness: a concrete risk-based repetition, and two audit calls with
different histories and states but the same action id agreeing on the
sampling outcome. -/
theorem C7_policy_determinism_amended_witness :
    ((policy_iterate
        (fun _ : Unit =>
          (risk_should_request {}
            (Action.mk "act-1" "t" [] RiskClass.low [] "" []) [], ()))
        () 0).1 =
      (policy_iterate
        (fun _ : Unit =>
          (risk_should_request {}
            (Action.mk "act-1" "t" [] RiskClass.low [] "" []) [], ()))
        () 5).1) ∧
    (audit_should_request {} []
        (Action.mk "act-1" "t" [] RiskClass.low [] "" []) []).1.1 =
      (audit_should_request {} ["other"]
        (Action.mk "act-1" "t" [] RiskClass.low [] "" [])
        [("k", PyVal.vInt 7)]).1.1 := by
  have h := C7_policy_determinism_amended
  exact ⟨h.1 {} (Action.mk "act-1" "t" [] RiskClass.low [] "" []) [] 0 5,
    h.2.2 {} [] ["other"]
      (Action.mk "act-1" "t" [] RiskClass.low [] "" [])
      (Action.mk "act-1" "t" [] RiskClass.low [] "" [])
      [] [("k", PyVal.vInt 7)] (by decide) (by decide) rfl⟩

end Hitloop
